import Mathlib

/-!
Shallow embedding of the job-portal REST backend (Express + Prisma).

Each route handler is modelled as a pure function from a request
(authenticated caller, path parameters, body) and the relational store
to a response (HTTP status, message, payload) paired with the new store.
Row ids are natural numbers drawn from a per-store counter `nextId`,
standing in for the unique ids generated by the database layer.
-/

namespace JobPortal

/-- User roles, from the User model role enum. -/
inductive Role where
  | JOB_SEEKER
  | RECRUITER
  | ADMIN
deriving DecidableEq, Repr

/-- The authenticated identity attached to a request by the auth
middleware: the JWT payload carries userId and role. -/
structure AuthUser where
  userId : Nat
  role : Role
deriving DecidableEq, Repr

/-- User row: id, name, email, role (password hash omitted, unused by the
modelled handlers). -/
structure UserRow where
  id : Nat
  name : String
  email : String
  role : Role
deriving DecidableEq, Repr

/-- Profile row, one-to-one with a user via userId. Only the fields the
modelled handlers touch are kept. -/
structure ProfileRow where
  id : Nat
  userId : Nat
  name : Option String
deriving DecidableEq, Repr

/-- Experience row, owned by a profile via profileId. -/
structure ExperienceRow where
  id : Nat
  profileId : Nat
  title : String
  company : String
  location : Option String
  startDate : String
  endDate : Option String
  current : Bool
  description : Option String
deriving DecidableEq, Repr

/-- Education row, owned by a profile via profileId. -/
structure EducationRow where
  id : Nat
  profileId : Nat
  institution : String
  degree : String
  fieldOfStudy : String
  startYear : String
  endYear : Option String
  grade : Option String
deriving DecidableEq, Repr

/-- Job row, owned by a recruiter user via recruiterId. -/
structure JobRow where
  id : Nat
  recruiterId : Nat
  title : String
  company : String
  location : String
  category : String
  type : String
  salary : String
  description : String
  requirements : Option String
  createdAt : Nat
deriving DecidableEq, Repr

/-- Application row linking a job seeker (userId) to a job (jobId). -/
structure ApplicationRow where
  id : Nat
  userId : Nat
  jobId : Nat
  coverLetter : Option String
  status : String
  createdAt : Nat
deriving DecidableEq, Repr

/-- SavedJob row linking a user (userId) to a job (jobId). -/
structure SavedJobRow where
  id : Nat
  userId : Nat
  jobId : Nat
  createdAt : Nat
deriving DecidableEq, Repr

/-- The relational store. `nextId` is the counter from which fresh row
ids (and creation timestamps) are drawn. -/
structure Store where
  users : List UserRow
  profiles : List ProfileRow
  experiences : List ExperienceRow
  education : List EducationRow
  jobs : List JobRow
  applications : List ApplicationRow
  savedJobs : List SavedJobRow
  nextId : Nat
deriving DecidableEq, Repr

/-- An HTTP JSON response: status code, message string, optional payload. -/
structure ApiRes (α : Type) where
  status : Nat
  message : String
  data : Option α
deriving DecidableEq, Repr

/-- Modelled from the spec: the requireRole middleware lives in
src/middleware/auth, which is not among the provided sources. Per the
specification, an authenticated caller whose role is not among the
allowed roles is rejected with Forbidden (403) before the handler body
runs. -/
def requireRole (allowed : List Role) (u : AuthUser) : Bool :=
  allowed.contains u.role

/-- JavaScript falsiness of an optional string request field: an absent
field or the empty string is falsy. -/
def jsFalsy (o : Option String) : Bool :=
  match o with
  | none => true
  | some s => s = ""

/-- JavaScript `x || d` on an optional string: the default replaces an
absent or empty value. -/
def jsOr (o : Option String) (d : String) : String :=
  match o with
  | none => d
  | some s => if s = "" then d else s

/-- Lowercases one character, modelling the JavaScript toLowerCase method
on the ASCII range the categories live in. -/
def jsCharLower (c : Char) : Char :=
  if 'A' ≤ c ∧ c ≤ 'Z' then Char.ofNat (c.toNat + 32) else c

/-- Models the JavaScript toLowerCase string method. -/
def jsToLower (s : String) : String :=
  String.mk (s.data.map jsCharLower)

/-- Whitespace as stripped by the JavaScript trim method (the common
ASCII cases). -/
def jsIsWhite (c : Char) : Bool :=
  c = ' ' ∨ c = '\t' ∨ c = '\n' ∨ c = '\r'

/-- Models the JavaScript trim string method. -/
def jsTrim (s : String) : String :=
  String.mk (((s.data.dropWhile jsIsWhite).reverse.dropWhile jsIsWhite).reverse)

/-- The JOB_CATEGORIES constant from the jobs router. -/
def JOB_CATEGORIES : List String := ["frontend", "backend", "fullstack"]

/-- The normalizeCategory helper from the jobs router: non-strings map to
null, otherwise trim and lowercase; the empty string and anything outside
JOB_CATEGORIES map to null. -/
def normalizeCategory (input : Option String) : Option String :=
  match input with
  | none => none
  | some s =>
    let value := jsToLower (jsTrim s)
    if value = "" then none
    else if JOB_CATEGORIES.contains value then some value
    else none

/-- The 400 message used by the jobs router for an invalid role/category. -/
def invalidRoleMsg : String :=
  "Invalid role. Use one of: " ++ String.intercalate ", " JOB_CATEGORIES

/-- Request body for POST /jobs and PUT /jobs/:id. Every field is
optional, reflecting a JSON body with possibly missing keys. -/
structure JobBody where
  title : Option String
  company : Option String
  location : Option String
  type : Option String
  salary : Option String
  description : Option String
  requirements : Option String
  role : Option String
  category : Option String
deriving DecidableEq, Repr

/-- GET /jobs handler: reads role (aliased by category) from the query,
rejects an unrecognized value with 400, otherwise returns the jobs
(filtered by category when one was given) newest-first. -/
def getJobs (s : Store) (roleQ categoryQ : Option String) :
    ApiRes (List JobRow) × Store :=
  let roleQuery := roleQ <|> categoryQ
  let category := normalizeCategory roleQuery
  if roleQuery.isSome && category.isNone then
    (⟨400, invalidRoleMsg, none⟩, s)
  else
    let base : List JobRow :=
      match category with
      | some c => s.jobs.filter (fun j => j.category = c)
      | none => s.jobs
    (⟨200, "", some (base.mergeSort (fun a b => decide (b.createdAt ≤ a.createdAt)))⟩, s)

/-- POST /jobs handler (recruiter only): normalizes role/category with a
fullstack fallback, validates the required fields, creates the job. -/
def createJob (s : Store) (caller : AuthUser) (b : JobBody) :
    ApiRes JobRow × Store :=
  if !requireRole [Role.RECRUITER] caller then
    (⟨403, "Forbidden", none⟩, s)
  else
    let category := (normalizeCategory (b.role <|> b.category)).getD "fullstack"
    if jsFalsy b.title || jsFalsy b.company || jsFalsy b.location
        || jsFalsy b.salary || jsFalsy b.description then
      (⟨400, "Required fields missing", none⟩, s)
    else
      let job : JobRow :=
        { id := s.nextId
          recruiterId := caller.userId
          title := b.title.getD ""
          company := b.company.getD ""
          location := b.location.getD ""
          category := category
          type := jsOr b.type "FULL_TIME"
          salary := b.salary.getD ""
          description := b.description.getD ""
          requirements := b.requirements
          createdAt := s.nextId }
      (⟨201, "Job created", some job⟩,
       { s with jobs := s.jobs ++ [job], nextId := s.nextId + 1 })

/-- Applies a PUT /jobs/:id body to a job row, Prisma-style: absent
fields are left unchanged; the category argument is the normalized
category when one was supplied. -/
def applyJobUpdate (j : JobRow) (b : JobBody) (cat : Option String) : JobRow :=
  { j with
    title := b.title.getD j.title
    company := b.company.getD j.company
    location := b.location.getD j.location
    type := b.type.getD j.type
    salary := b.salary.getD j.salary
    description := b.description.getD j.description
    requirements := match b.requirements with
      | some r => some r
      | none => j.requirements
    category := cat.getD j.category }

/-- PUT /jobs/:id handler (recruiter only): 404 if the job is absent,
403 if the caller is not its recruiter, 400 if a supplied role/category
does not normalize, else applies the partial update. -/
def updateJob (s : Store) (caller : AuthUser) (jobId : Nat) (b : JobBody) :
    ApiRes JobRow × Store :=
  if !requireRole [Role.RECRUITER] caller then
    (⟨403, "Forbidden", none⟩, s)
  else
    match s.jobs.find? (fun j => j.id = jobId) with
    | none => (⟨404, "Job not found", none⟩, s)
    | some job =>
      if job.recruiterId ≠ caller.userId then
        (⟨403, "Not authorized", none⟩, s)
      else
        let maybeCategory := normalizeCategory (b.role <|> b.category)
        if (b.role.isSome || b.category.isSome) && maybeCategory.isNone then
          (⟨400, invalidRoleMsg, none⟩, s)
        else
          let updated := applyJobUpdate job b maybeCategory
          (⟨200, "Job updated", some updated⟩,
           { s with jobs := s.jobs.map (fun j => if j.id = jobId then updated else j) })

/-- DELETE /jobs/:id handler (recruiter or admin): 404 if the job is
absent, 403 when a recruiter targets a job that is not theirs, else
deletes the related applications and saved jobs and then the job. -/
def deleteJob (s : Store) (caller : AuthUser) (jobId : Nat) :
    ApiRes Unit × Store :=
  if !requireRole [Role.RECRUITER, Role.ADMIN] caller then
    (⟨403, "Forbidden", none⟩, s)
  else
    match s.jobs.find? (fun j => j.id = jobId) with
    | none => (⟨404, "Job not found", none⟩, s)
    | some job =>
      if caller.role = Role.RECRUITER ∧ job.recruiterId ≠ caller.userId then
        (⟨403, "Not authorized", none⟩, s)
      else
        (⟨200, "Job deleted", some ()⟩,
         { s with
             applications := s.applications.filter (fun a => a.jobId ≠ jobId)
             savedJobs := s.savedJobs.filter (fun sj => sj.jobId ≠ jobId)
             jobs := s.jobs.filter (fun j => j.id ≠ jobId) })

/-- POST /applications/job/:jobId handler (job seeker only): 404 if the
job is absent, 400 if an application for (caller, job) already exists,
else creates a PENDING application. -/
def applyToJob (s : Store) (caller : AuthUser) (jobId : Nat)
    (coverLetter : Option String) : ApiRes ApplicationRow × Store :=
  if !requireRole [Role.JOB_SEEKER] caller then
    (⟨403, "Forbidden", none⟩, s)
  else if (s.jobs.find? (fun j => j.id = jobId)).isNone then
    (⟨404, "Job not found", none⟩, s)
  else if (s.applications.find?
      (fun a => a.userId = caller.userId ∧ a.jobId = jobId)).isSome then
    (⟨400, "Already applied to this job", none⟩, s)
  else
    let app : ApplicationRow :=
      { id := s.nextId
        userId := caller.userId
        jobId := jobId
        coverLetter := coverLetter
        status := "PENDING"
        createdAt := s.nextId }
    (⟨201, "Application submitted", some app⟩,
     { s with applications := s.applications ++ [app], nextId := s.nextId + 1 })

/-- GET /applications/:id handler (any authenticated user): 404 if the
application is absent; a job seeker other than the applicant and a
recruiter not owning the job get 403; any other caller (in particular an
admin) receives the application. A recruiter check dereferences the
included job row, so a dangling jobId surfaces as a 500 there. -/
def getApplication (s : Store) (caller : AuthUser) (appId : Nat) :
    ApiRes ApplicationRow × Store :=
  match s.applications.find? (fun a => a.id = appId) with
  | none => (⟨404, "Application not found", none⟩, s)
  | some app =>
    if caller.role = Role.JOB_SEEKER ∧ app.userId ≠ caller.userId then
      (⟨403, "Not authorized", none⟩, s)
    else if caller.role = Role.RECRUITER then
      match s.jobs.find? (fun j => j.id = app.jobId) with
      | none => (⟨500, "Server error", none⟩, s)
      | some job =>
        if job.recruiterId ≠ caller.userId then
          (⟨403, "Not authorized", none⟩, s)
        else
          (⟨200, "", some app⟩, s)
    else
      (⟨200, "", some app⟩, s)

/-- DELETE /applications/:id handler (job seeker only): 404 if absent,
403 if the caller is not the applicant, else hard-deletes the row. -/
def withdrawApplication (s : Store) (caller : AuthUser) (appId : Nat) :
    ApiRes Unit × Store :=
  if !requireRole [Role.JOB_SEEKER] caller then
    (⟨403, "Forbidden", none⟩, s)
  else
    match s.applications.find? (fun a => a.id = appId) with
    | none => (⟨404, "Application not found", none⟩, s)
    | some app =>
      if app.userId ≠ caller.userId then
        (⟨403, "Not authorized", none⟩, s)
      else
        (⟨200, "Application withdrawn", some ()⟩,
         { s with applications := s.applications.filter (fun a => a.id ≠ appId) })

/-- POST /saved-jobs/:jobId handler (job seeker only): 404 if the job is
absent, 400 if the (caller, job) pairing already exists, else saves. -/
def saveJob (s : Store) (caller : AuthUser) (jobId : Nat) :
    ApiRes Unit × Store :=
  if !requireRole [Role.JOB_SEEKER] caller then
    (⟨403, "Forbidden", none⟩, s)
  else if (s.jobs.find? (fun j => j.id = jobId)).isNone then
    (⟨404, "Job not found", none⟩, s)
  else if (s.savedJobs.find?
      (fun sj => sj.userId = caller.userId ∧ sj.jobId = jobId)).isSome then
    (⟨400, "Job already saved", none⟩, s)
  else
    let sj : SavedJobRow :=
      { id := s.nextId
        userId := caller.userId
        jobId := jobId
        createdAt := s.nextId }
    (⟨200, "Job saved", some ()⟩,
     { s with savedJobs := s.savedJobs ++ [sj], nextId := s.nextId + 1 })

/-- DELETE /saved-jobs/:jobId handler (job seeker only): 404 if the
pairing does not exist, else deletes it. -/
def removeSavedJob (s : Store) (caller : AuthUser) (jobId : Nat) :
    ApiRes Unit × Store :=
  if !requireRole [Role.JOB_SEEKER] caller then
    (⟨403, "Forbidden", none⟩, s)
  else if (s.savedJobs.find?
      (fun sj => sj.userId = caller.userId ∧ sj.jobId = jobId)).isNone then
    (⟨404, "Saved job not found", none⟩, s)
  else
    (⟨200, "Job removed from saved", some ()⟩,
     { s with savedJobs :=
         s.savedJobs.filter (fun sj => ¬(sj.userId = caller.userId ∧ sj.jobId = jobId)) })

/-- GET /saved-jobs/check/:jobId handler (job seeker only): reports
whether the (caller, job) pairing exists; never errors on absence. -/
def checkSavedJob (s : Store) (caller : AuthUser) (jobId : Nat) :
    ApiRes Bool × Store :=
  if !requireRole [Role.JOB_SEEKER] caller then
    (⟨403, "Forbidden", none⟩, s)
  else
    (⟨200, "", some ((s.savedJobs.find?
        (fun sj => sj.userId = caller.userId ∧ sj.jobId = jobId)).isSome)⟩, s)

/-- GET /profile handler: returns the profile of the caller, creating
one (named after the user row) when none exists; dereferencing the user
row of an unknown caller surfaces as a 500. -/
def getMyProfile (s : Store) (caller : AuthUser) :
    ApiRes ProfileRow × Store :=
  match s.profiles.find? (fun p => p.userId = caller.userId) with
  | some p => (⟨200, "", some p⟩, s)
  | none =>
    match s.users.find? (fun u => u.id = caller.userId) with
    | none => (⟨500, "Server error", none⟩, s)
    | some user =>
      let p : ProfileRow :=
        { id := s.nextId, userId := caller.userId, name := some user.name }
      (⟨200, "", some p⟩,
       { s with profiles := s.profiles ++ [p], nextId := s.nextId + 1 })

/-- GET /profile/:userId handler (public): 404 when the user has no
profile; never creates one. -/
def getProfileByUserId (s : Store) (uid : Nat) :
    ApiRes ProfileRow × Store :=
  match s.profiles.find? (fun p => p.userId = uid) with
  | none => (⟨404, "Profile not found", none⟩, s)
  | some p => (⟨200, "", some p⟩, s)

/-- Request body for the experience routes. The current flag models the
truthiness of the supplied value. -/
structure ExperienceBody where
  title : Option String
  company : Option String
  location : Option String
  startDate : Option String
  endDate : Option String
  current : Bool
  description : Option String
deriving DecidableEq, Repr

/-- POST /profile/experience handler: 400 when title, company or start
date is missing; ensures a profile exists (creating a bare one if not);
stores the experience with endDate forced to null when current is set. -/
def addExperience (s : Store) (caller : AuthUser) (b : ExperienceBody) :
    ApiRes ExperienceRow × Store :=
  if jsFalsy b.title || jsFalsy b.company || jsFalsy b.startDate then
    (⟨400, "Title, company, and start date are required", none⟩, s)
  else
    let pr : Nat × Store :=
      match s.profiles.find? (fun p => p.userId = caller.userId) with
      | some p => (p.id, s)
      | none =>
        ((s.nextId),
         { s with
             profiles := s.profiles ++
               [{ id := s.nextId, userId := caller.userId, name := none }]
             nextId := s.nextId + 1 })
    let s1 := pr.2
    let e : ExperienceRow :=
      { id := s1.nextId
        profileId := pr.1
        title := b.title.getD ""
        company := b.company.getD ""
        location := b.location
        startDate := b.startDate.getD ""
        endDate := if b.current then none else b.endDate
        current := b.current
        description := b.description }
    (⟨201, "Experience added", some e⟩,
     { s1 with experiences := s1.experiences ++ [e], nextId := s1.nextId + 1 })

/-- Applies a PUT /profile/experience/:id body to an existing row,
Prisma-style: absent fields are skipped, endDate is forced to null when
current is set, current itself is always written. -/
def applyExperienceUpdate (e : ExperienceRow) (b : ExperienceBody) : ExperienceRow :=
  { e with
    title := b.title.getD e.title
    company := b.company.getD e.company
    location := match b.location with
      | some l => some l
      | none => e.location
    startDate := b.startDate.getD e.startDate
    endDate := if b.current then none
      else match b.endDate with
        | some d => some d
        | none => e.endDate
    current := b.current
    description := match b.description with
      | some d => some d
      | none => e.description }

/-- PUT /profile/experience/:id handler: a missing row or a row owned by
another profile both yield 403; a dangling profileId surfaces as a 500;
else the row is updated. -/
def updateExperience (s : Store) (caller : AuthUser) (expId : Nat)
    (b : ExperienceBody) : ApiRes ExperienceRow × Store :=
  match s.experiences.find? (fun e => e.id = expId) with
  | none => (⟨403, "Not authorized", none⟩, s)
  | some e =>
    match s.profiles.find? (fun p => p.id = e.profileId) with
    | none => (⟨500, "Server error", none⟩, s)
    | some p =>
      if p.userId ≠ caller.userId then
        (⟨403, "Not authorized", none⟩, s)
      else
        let updated := applyExperienceUpdate e b
        (⟨200, "Experience updated", some updated⟩,
         { s with experiences :=
             s.experiences.map (fun x => if x.id = expId then updated else x) })

/-- DELETE /profile/experience/:id handler: a missing row or a row owned
by another profile both yield 403; else the row is removed. -/
def deleteExperience (s : Store) (caller : AuthUser) (expId : Nat) :
    ApiRes Unit × Store :=
  match s.experiences.find? (fun e => e.id = expId) with
  | none => (⟨403, "Not authorized", none⟩, s)
  | some e =>
    match s.profiles.find? (fun p => p.id = e.profileId) with
    | none => (⟨500, "Server error", none⟩, s)
    | some p =>
      if p.userId ≠ caller.userId then
        (⟨403, "Not authorized", none⟩, s)
      else
        (⟨200, "Experience deleted", some ()⟩,
         { s with experiences := s.experiences.filter (fun x => x.id ≠ expId) })

/-- Request body for the education routes. -/
structure EducationBody where
  institution : Option String
  degree : Option String
  fieldOfStudy : Option String
  startYear : Option String
  endYear : Option String
  grade : Option String
deriving DecidableEq, Repr

/-- Applies a PUT /profile/education/:id body to an existing row,
Prisma-style: absent fields are skipped. -/
def applyEducationUpdate (e : EducationRow) (b : EducationBody) : EducationRow :=
  { e with
    institution := b.institution.getD e.institution
    degree := b.degree.getD e.degree
    fieldOfStudy := b.fieldOfStudy.getD e.fieldOfStudy
    startYear := b.startYear.getD e.startYear
    endYear := match b.endYear with
      | some d => some d
      | none => e.endYear
    grade := match b.grade with
      | some g => some g
      | none => e.grade }

/-- PUT /profile/education/:id handler: a missing row or a row owned by
another profile both yield 403; else the row is updated. -/
def updateEducation (s : Store) (caller : AuthUser) (eduId : Nat)
    (b : EducationBody) : ApiRes EducationRow × Store :=
  match s.education.find? (fun e => e.id = eduId) with
  | none => (⟨403, "Not authorized", none⟩, s)
  | some e =>
    match s.profiles.find? (fun p => p.id = e.profileId) with
    | none => (⟨500, "Server error", none⟩, s)
    | some p =>
      if p.userId ≠ caller.userId then
        (⟨403, "Not authorized", none⟩, s)
      else
        let updated := applyEducationUpdate e b
        (⟨200, "Education updated", some updated⟩,
         { s with education :=
             s.education.map (fun x => if x.id = eduId then updated else x) })

/-- DELETE /profile/education/:id handler: a missing row or a row owned
by another profile both yield 403; else the row is removed. -/
def deleteEducation (s : Store) (caller : AuthUser) (eduId : Nat) :
    ApiRes Unit × Store :=
  match s.education.find? (fun e => e.id = eduId) with
  | none => (⟨403, "Not authorized", none⟩, s)
  | some e =>
    match s.profiles.find? (fun p => p.id = e.profileId) with
    | none => (⟨500, "Server error", none⟩, s)
    | some p =>
      if p.userId ≠ caller.userId then
        (⟨403, "Not authorized", none⟩, s)
      else
        (⟨200, "Education deleted", some ()⟩,
         { s with education := s.education.filter (fun x => x.id ≠ eduId) })

/-- One step of the cascade loop in DELETE /admin/users/:id: for one job
recruited by the target, delete the applications and saved jobs of that
job. -/
def purgeJobRefs (acc : Store) (job : JobRow) : Store :=
  { acc with
      applications := acc.applications.filter (fun a => a.jobId ≠ job.id)
      savedJobs := acc.savedJobs.filter (fun sj => sj.jobId ≠ job.id) }

/-- DELETE /admin/users/:id handler (admin only): deletes the target
applications and saved jobs, then for each job recruited by the target
that job seeker-facing rows, then those jobs, then the user. Deleting an
absent user throws in the database layer and surfaces as a 500 after the
earlier steps already ran. The removal of the Profile row is modelled
from the spec: it is carried by the database cascade declared in the
Prisma schema, which is not among the provided sources; the spec states
that deletion by an admin cascades to the owned Profile. -/
def deleteUser (s : Store) (caller : AuthUser) (targetId : Nat) :
    ApiRes Unit × Store :=
  if !requireRole [Role.ADMIN] caller then
    (⟨403, "Forbidden", none⟩, s)
  else
    let s1 := { s with applications := s.applications.filter (fun a => a.userId ≠ targetId) }
    let s2 := { s1 with savedJobs := s1.savedJobs.filter (fun sj => sj.userId ≠ targetId) }
    let userJobs := s2.jobs.filter (fun j => j.recruiterId = targetId)
    let s3 := userJobs.foldl purgeJobRefs s2
    let s4 := { s3 with jobs := s3.jobs.filter (fun j => j.recruiterId ≠ targetId) }
    if (s4.users.find? (fun u => u.id = targetId)).isNone then
      (⟨500, "Server error", none⟩, s4)
    else
      (⟨200, "User deleted", some ()⟩,
       { s4 with
           users := s4.users.filter (fun u => u.id ≠ targetId)
           profiles := s4.profiles.filter (fun p => p.userId ≠ targetId) })

/-- Fixture: an empty store with the id counter at 1. -/
def emptyStore : Store := ⟨[], [], [], [], [], [], [], 1⟩

/-- Fixture: a job-seeker user row. -/
def seekerRow : UserRow := ⟨20, "Sam", "sam@example.com", Role.JOB_SEEKER⟩

/-- Fixture: a recruiter user row. -/
def recruiterRow : UserRow := ⟨10, "Rae", "rae@example.com", Role.RECRUITER⟩

/-- Fixture: an admin user row. -/
def adminRow : UserRow := ⟨30, "Ada", "ada@example.com", Role.ADMIN⟩

/-- Fixture: the job seeker as an authenticated caller. -/
def seekerCaller : AuthUser := ⟨20, Role.JOB_SEEKER⟩

/-- Fixture: the recruiter as an authenticated caller. -/
def recruiterCaller : AuthUser := ⟨10, Role.RECRUITER⟩

/-- Fixture: the admin as an authenticated caller. -/
def adminCaller : AuthUser := ⟨30, Role.ADMIN⟩

/-- Fixture: a job posted by the recruiter. -/
def ownedJob : JobRow :=
  ⟨5, 10, "Engineer", "Acme", "Remote", "frontend", "FULL_TIME", "100k", "great job", none, 0⟩

/-- Fixture: a store holding the three users and the recruiter job. -/
def baseStore : Store :=
  ⟨[seekerRow, recruiterRow, adminRow], [], [], [], [ownedJob], [], [], 100⟩

/-- Fixture: a pending application by the job seeker to the recruiter job. -/
def pendingApp : ApplicationRow := ⟨7, 20, 5, none, "PENDING", 1⟩

/-- Fixture: baseStore with the pending application present. -/
def appStore : Store := { baseStore with applications := [pendingApp] }

/-- Fixture: a saved-job row pairing the job seeker with the recruiter job. -/
def savedPair : SavedJobRow := ⟨8, 20, 5, 2⟩

/-- Fixture: the recruiter profile row. -/
def recruiterProfile : ProfileRow := ⟨40, 10, some "Rae"⟩

/-- Fixture: a store exercising every table the delete-user cascade touches. -/
def cascadeStore : Store :=
  ⟨[seekerRow, recruiterRow, adminRow], [recruiterProfile], [], [],
   [ownedJob], [pendingApp], [savedPair], 100⟩

/-- Fixture: a complete create-job body carrying category mobile. -/
def engineerMobileBody : JobBody :=
  ⟨some "Engineer", some "Acme", some "Remote", none, some "100k",
   some "great job", none, none, some "mobile"⟩

/-- Fixture: a complete create-job body carrying no category. -/
def engineerPlainBody : JobBody :=
  ⟨some "Engineer", some "Acme", some "Remote", none, some "100k",
   some "great job", none, none, none⟩

/-- Fixture: an experience body with the current flag set and an end date
supplied. -/
def currentBody : ExperienceBody :=
  ⟨some "Dev", some "Acme", none, some "2020-01-01", some "2022-01-01", true, none⟩

/-- Fixture: the experience row that adding currentBody to baseStore as
the job seeker produces. -/
def currentExp : ExperienceRow :=
  ⟨101, 100, "Dev", "Acme", none, "2020-01-01", none, true, none⟩

/-- C1 counterexample: POST /jobs as a recruiter with all required fields
and category mobile does not fail with 400 as the claim states; the
handler silently falls back to category fullstack and creates the job
with 201. -/
theorem createJob_mobile_not_rejected :
    (createJob emptyStore recruiterCaller engineerMobileBody).1.status = 201 ∧
    (createJob emptyStore recruiterCaller engineerMobileBody).1.status ≠ 400 ∧
    Option.map JobRow.category (createJob emptyStore recruiterCaller engineerMobileBody).1.data
      = some "fullstack" ∧
    (createJob emptyStore recruiterCaller engineerMobileBody).2.jobs.length = 1 := by
  decide

/-- C1 (amended): for POST /jobs by a recruiter with title, company,
location, salary and description present: no supplied category stores
category fullstack; a mixed-case Frontend stores frontend; a supplied
category mobile does not fail but stores fullstack and still creates the
job; and any returned job is persisted in the store. -/
theorem createJob_category_normalization (s : Store) (caller : AuthUser) (b : JobBody)
    (hrole : caller.role = Role.RECRUITER)
    (ht : jsFalsy b.title = false) (hco : jsFalsy b.company = false)
    (hl : jsFalsy b.location = false) (hs : jsFalsy b.salary = false)
    (hd : jsFalsy b.description = false) :
    ((b.role <|> b.category) = none →
      (createJob s caller b).1.status = 201 ∧
      Option.map JobRow.category (createJob s caller b).1.data = some "fullstack") ∧
    ((b.role <|> b.category) = some "Frontend" →
      (createJob s caller b).1.status = 201 ∧
      Option.map JobRow.category (createJob s caller b).1.data = some "frontend") ∧
    ((b.role <|> b.category) = some "mobile" →
      (createJob s caller b).1.status = 201 ∧
      Option.map JobRow.category (createJob s caller b).1.data = some "fullstack" ∧
      (createJob s caller b).2.jobs.length = s.jobs.length + 1) ∧
    (∀ j, (createJob s caller b).1.data = some j → j ∈ (createJob s caller b).2.jobs) := by
  simp only [createJob, requireRole, hrole, List.contains_cons, beq_self_eq_true,
    Bool.true_or, Bool.not_true, Bool.false_eq_true, not_false_eq_true,
    ht, hco, hl, hs, hd, Bool.or_self, if_false, Bool.or_false, ite_false]
  refine ⟨?_, ?_, ?_, ?_⟩
  · intro h
    rw [h]
    simp [normalizeCategory]
  · intro h
    rw [h]
    refine ⟨trivial, ?_⟩
    simp only [Option.map_some']
    have hval : normalizeCategory (some "Frontend") = some "frontend" := by decide
    rw [hval]
    rfl
  · intro h
    rw [h]
    refine ⟨trivial, ?_, by simp⟩
    simp only [Option.map_some']
    have hval : normalizeCategory (some "mobile") = none := by decide
    rw [hval]
    rfl
  · intro j hj
    simp only [Option.map_some', Option.some.injEq] at hj
    rw [← hj]
    simp

/-- C1 witness: the amended create-job theorem applied to a concrete
recruiter request with no category. -/
theorem createJob_category_normalization_witness :
    (createJob emptyStore recruiterCaller engineerPlainBody).1.status = 201 ∧
    Option.map JobRow.category (createJob emptyStore recruiterCaller engineerPlainBody).1.data
      = some "fullstack" :=
  (createJob_category_normalization emptyStore recruiterCaller engineerPlainBody
    rfl rfl rfl rfl rfl rfl).1 rfl

/-- C6: the public job listing filtered by category frontend returns
exactly the stored jobs with category frontend; an unrecognized category
fails with 400 and the invalid-role message; and the unfiltered listing
returns all jobs, newest first by creation time. -/
theorem getJobs_filter_and_order (s : Store) :
    ((getJobs s none (some "frontend")).1.status = 200 ∧
      ∃ l, (getJobs s none (some "frontend")).1.data = some l ∧
        ∀ j, j ∈ l ↔ j ∈ s.jobs ∧ j.category = "frontend") ∧
    ((getJobs s none (some "bogus")).1.status = 400 ∧
      (getJobs s none (some "bogus")).1.message = invalidRoleMsg ∧
      (getJobs s none (some "bogus")).2 = s) ∧
    ((getJobs s none none).1.status = 200 ∧
      ∃ l, (getJobs s none none).1.data = some l ∧ l.Perm s.jobs ∧
        l.Pairwise (fun a b => b.createdAt ≤ a.createdAt)) := by
  have hf : normalizeCategory (some "frontend") = some "frontend" := by decide
  have hb : normalizeCategory (some "bogus") = none := by decide
  have ho : ∀ x : Option String, (none <|> x) = x := fun x => rfl
  refine ⟨?_, ?_, ?_⟩
  · simp only [getJobs, ho, hf]
    constructor
    · rfl
    · refine ⟨_, rfl, ?_⟩
      intro j
      simp [List.mem_filter]
  · simp [getJobs, ho, hb]
  · simp only [getJobs, ho, normalizeCategory]
    refine ⟨rfl, _, rfl, List.mergeSort_perm _ _, ?_⟩
    have hsorted := @List.sorted_mergeSort JobRow
      (fun a b => decide (b.createdAt ≤ a.createdAt))
      (fun a b c hab hbc => by
        simp only [decide_eq_true_eq] at *
        omega)
      (fun a b => by
        simp only [Bool.or_eq_true, decide_eq_true_eq]
        omega)
      s.jobs
    exact hsorted.imp (fun h => by simpa using h)

/-- C2: after a job seeker applies to an existing job, a second apply
fails with 400 and changes nothing; withdrawing the created application
restores the application table; a fresh apply then succeeds again; and
the store holds exactly one application for the (user, job) pair. -/
theorem apply_withdraw_reapply (s : Store) (caller : AuthUser) (jobId : Nat)
    (cl cl2 cl3 : Option String)
    (hrole : caller.role = Role.JOB_SEEKER)
    (hjob : (s.jobs.find? (fun j => j.id = jobId)).isSome = true)
    (hnone : s.applications.find? (fun a => a.userId = caller.userId ∧ a.jobId = jobId) = none)
    (hfresh : ∀ a ∈ s.applications, a.id ≠ s.nextId) :
    (applyToJob s caller jobId cl).1.status = 201 ∧
    (applyToJob s caller jobId cl).1.data
      = some ⟨s.nextId, caller.userId, jobId, cl, "PENDING", s.nextId⟩ ∧
    (applyToJob (applyToJob s caller jobId cl).2 caller jobId cl2).1.status = 400 ∧
    (applyToJob (applyToJob s caller jobId cl).2 caller jobId cl2).2
      = (applyToJob s caller jobId cl).2 ∧
    ((applyToJob s caller jobId cl).2).applications.countP
      (fun a => a.userId = caller.userId ∧ a.jobId = jobId) = 1 ∧
    (withdrawApplication (applyToJob s caller jobId cl).2 caller s.nextId).1.status = 200 ∧
    (withdrawApplication (applyToJob s caller jobId cl).2 caller s.nextId).2.applications
      = s.applications ∧
    (applyToJob (withdrawApplication (applyToJob s caller jobId cl).2 caller s.nextId).2
      caller jobId cl3).1.status = 201 := by
  have hreq : requireRole [Role.JOB_SEEKER] caller = true := by
    simp [requireRole, hrole]
  have h1 : applyToJob s caller jobId cl =
      (⟨201, "Application submitted",
        some ⟨s.nextId, caller.userId, jobId, cl, "PENDING", s.nextId⟩⟩,
       { s with
           applications := s.applications ++
             [⟨s.nextId, caller.userId, jobId, cl, "PENDING", s.nextId⟩]
           nextId := s.nextId + 1 }) := by
    have hjn : (s.jobs.find? (fun j => j.id = jobId)).isNone = false := by
      rw [Option.isNone_eq_false_iff]
      exact hjob
    have han : (s.applications.find?
        (fun a => a.userId = caller.userId ∧ a.jobId = jobId)).isSome = false := by
      rw [hnone]; rfl
    simp only [applyToJob, hreq, Bool.not_true, Bool.false_eq_true, if_false, hjn, han, ite_false]
  rw [h1]
  set app : ApplicationRow := ⟨s.nextId, caller.userId, jobId, cl, "PENDING", s.nextId⟩ with happ
  set s1 : Store :=
    { s with applications := s.applications ++ [app], nextId := s.nextId + 1 } with hs1
  have hpair : (fun a : ApplicationRow =>
      decide (a.userId = caller.userId ∧ a.jobId = jobId)) app = true := by
    simp [happ]
  have hfind1 : s1.applications.find?
      (fun a => a.userId = caller.userId ∧ a.jobId = jobId) = some app := by
    show (s.applications ++ [app]).find? _ = some app
    rw [List.find?_append, hnone]
    simp [hpair]
  have hjn1 : (s1.jobs.find? (fun j => j.id = jobId)).isNone = false := by
    show (s.jobs.find? (fun j => j.id = jobId)).isNone = false
    rw [Option.isNone_eq_false_iff]
    exact hjob
  have h2 : applyToJob s1 caller jobId cl2 = (⟨400, "Already applied to this job", none⟩, s1) := by
    simp only [applyToJob, hreq, Bool.not_true, Bool.false_eq_true, if_false, hjn1, ite_false,
      hfind1, Option.isSome_some, if_true]
  have hfindid : s.applications.find? (fun a => a.id = s.nextId) = none := by
    rw [List.find?_eq_none]
    intro a ha
    simp [hfresh a ha]
  have hfind2 : s1.applications.find? (fun a => a.id = s.nextId) = some app := by
    show (s.applications ++ [app]).find? _ = some app
    rw [List.find?_append, hfindid]
    simp [happ]
  have hfilter : s1.applications.filter (fun a => a.id ≠ s.nextId) = s.applications := by
    show (s.applications ++ [app]).filter _ = s.applications
    rw [List.filter_append]
    have hl : s.applications.filter (fun a => a.id ≠ s.nextId) = s.applications := by
      rw [List.filter_eq_self]
      intro a ha
      simp [hfresh a ha]
    have hr : [app].filter (fun a => (a.id ≠ s.nextId : Bool)) = [] := by
      simp [happ]
    rw [hl, hr, List.append_nil]
  have h3 : withdrawApplication s1 caller s.nextId =
      (⟨200, "Application withdrawn", some ()⟩,
       { s1 with applications := s.applications }) := by
    simp only [withdrawApplication, hreq, Bool.not_true, Bool.false_eq_true, if_false, hfind2]
    simp [happ, hfilter]
    intro a ha
    exact hfresh a ha
  rw [h2, h3]
  set s2 : Store := { s1 with applications := s.applications } with hs2
  have hjn2 : (s2.jobs.find? (fun j => j.id = jobId)).isNone = false := by
    show (s.jobs.find? (fun j => j.id = jobId)).isNone = false
    rw [Option.isNone_eq_false_iff]
    exact hjob
  have han2 : (s2.applications.find?
      (fun a => a.userId = caller.userId ∧ a.jobId = jobId)).isSome = false := by
    show (s.applications.find? _).isSome = false
    rw [hnone]; rfl
  have h4 : (applyToJob s2 caller jobId cl3).1.status = 201 := by
    simp only [applyToJob, hreq, Bool.not_true, Bool.false_eq_true, if_false, hjn2, han2, ite_false]
  have hcount : s.applications.countP
      (fun a => a.userId = caller.userId ∧ a.jobId = jobId) = 0 := by
    rw [List.countP_eq_zero]
    intro a ha
    have := List.find?_eq_none.mp hnone a ha
    simpa using this
  refine ⟨rfl, rfl, rfl, rfl, ?_, rfl, rfl, h4⟩
  show (s.applications ++ [app]).countP _ = 1
  rw [List.countP_append, hcount]
  simp [hpair]

/-- C2 witness: the apply/withdraw/reapply theorem applied to the
concrete base store. -/
theorem apply_withdraw_reapply_witness :
    (applyToJob baseStore seekerCaller 5 none).1.status = 201 ∧
    (applyToJob (applyToJob baseStore seekerCaller 5 none).2 seekerCaller 5 none).1.status = 400 ∧
    (withdrawApplication (applyToJob baseStore seekerCaller 5 none).2 seekerCaller
      baseStore.nextId).2.applications = baseStore.applications ∧
    (applyToJob (withdrawApplication (applyToJob baseStore seekerCaller 5 none).2 seekerCaller
      baseStore.nextId).2 seekerCaller 5 none).1.status = 201 :=
  have h := apply_withdraw_reapply baseStore seekerCaller 5 none none none rfl (by decide) rfl
    (by intro a ha; exact absurd ha (List.not_mem_nil a))
  ⟨h.1, h.2.2.1, h.2.2.2.2.2.2.1, h.2.2.2.2.2.2.2⟩

/-- C3 counterexample: an admin distinct from the owning recruiter
deletes the job successfully, so delete by an arbitrary other
authenticated user does not always fail with Forbidden. -/
theorem deleteJob_admin_succeeds :
    adminCaller.userId ≠ ownedJob.recruiterId ∧
    adminCaller.userId ≠ recruiterCaller.userId ∧
    (deleteJob baseStore adminCaller ownedJob.id).1.status = 200 ∧
    (deleteJob baseStore adminCaller ownedJob.id).1.status ≠ 403 ∧
    (deleteJob baseStore adminCaller ownedJob.id).2.jobs = [] := by
  decide

/-- C3 (amended): for a recruiter r owning job j, update by any other
user fails with Forbidden and leaves the store unchanged; delete by any
other non-admin user fails with Forbidden and leaves the store
unchanged; delete by an admin succeeds; update by r succeeds whenever a
supplied role/category normalizes; and delete by r succeeds. -/
theorem job_mutation_authorization (s : Store) (r u : AuthUser) (j : JobRow) (b : JobBody)
    (hr : r.role = Role.RECRUITER)
    (hfind : s.jobs.find? (fun x => x.id = j.id) = some j)
    (hown : j.recruiterId = r.userId)
    (hu : u.userId ≠ r.userId) :
    ((updateJob s u j.id b).1.status = 403 ∧ (updateJob s u j.id b).2 = s) ∧
    (u.role ≠ Role.ADMIN → (deleteJob s u j.id).1.status = 403 ∧ (deleteJob s u j.id).2 = s) ∧
    (u.role = Role.ADMIN → (deleteJob s u j.id).1.status = 200) ∧
    (((b.role.isSome ∨ b.category.isSome) → (normalizeCategory (b.role <|> b.category)).isSome) →
      (updateJob s r j.id b).1.status = 200) ∧
    (deleteJob s r j.id).1.status = 200 := by
  have hown' : j.recruiterId ≠ u.userId := by
    rw [hown]; exact fun h => hu h.symm
  refine ⟨?_, ?_, ?_, ?_, ?_⟩
  · cases hrole : u.role with
    | RECRUITER =>
      simp [updateJob, requireRole, hrole, hfind, hown']
    | JOB_SEEKER =>
      simp [updateJob, requireRole, hrole]
    | ADMIN =>
      simp [updateJob, requireRole, hrole]
  · intro hna
    cases hrole : u.role with
    | RECRUITER =>
      simp [deleteJob, requireRole, hrole, hfind, hown']
    | JOB_SEEKER =>
      simp [deleteJob, requireRole, hrole]
    | ADMIN => exact absurd hrole hna
  · intro ha
    simp [deleteJob, requireRole, ha, hfind]
  · intro hv
    have hcat : ¬((b.role.isSome || b.category.isSome) = true ∧
        (normalizeCategory (b.role <|> b.category)).isNone = true) := by
      intro hpq
      have := hv (by simpa using hpq.1)
      have h2 := hpq.2
      simp [Option.isNone_iff_eq_none] at h2
      simp [h2] at this
    simp [updateJob, requireRole, hr, hfind, hown]
    rw [if_neg]
    intro hmm
    exact hcat ⟨by simpa using hmm.1, by simp [hmm.2]⟩
  · simp [deleteJob, requireRole, hr, hfind, hown]

/-- C3 witness: the authorization theorem applied to the base store with
the job seeker as the foreign caller. -/
theorem job_mutation_authorization_witness :
    ((updateJob baseStore seekerCaller ownedJob.id engineerPlainBody).1.status = 403 ∧
      (updateJob baseStore seekerCaller ownedJob.id engineerPlainBody).2 = baseStore) ∧
    (deleteJob baseStore recruiterCaller ownedJob.id).1.status = 200 :=
  have h := job_mutation_authorization baseStore recruiterCaller seekerCaller ownedJob
    engineerPlainBody rfl (by decide) rfl (by decide)
  ⟨h.1, h.2.2.2.2⟩

/-- C4 counterexample: an admin who is neither the applicant nor the
owning recruiter still receives the application with 200, so the claim
that every such user gets Forbidden is false. -/
theorem getApplication_admin_sees_all :
    adminCaller.userId ≠ pendingApp.userId ∧
    adminCaller.userId ≠ ownedJob.recruiterId ∧
    (getApplication appStore adminCaller 7).1.status = 200 ∧
    (getApplication appStore adminCaller 7).1.status ≠ 403 ∧
    (getApplication appStore adminCaller 7).1.data = some pendingApp := by
  decide

/-- C4 (amended): GET on an application returns it to the applying job
seeker, the owning recruiter, and any admin; a job seeker who is not the
applicant and a recruiter who does not own the job get Forbidden with
the store unchanged; an absent id yields 404. -/
theorem getApplication_access_control (s : Store) (caller : AuthUser) (appId : Nat)
    (app : ApplicationRow)
    (happ : s.applications.find? (fun a => a.id = appId) = some app) :
    (caller.role = Role.JOB_SEEKER → caller.userId = app.userId →
      (getApplication s caller appId).1.status = 200 ∧
      (getApplication s caller appId).1.data = some app) ∧
    (caller.role = Role.JOB_SEEKER → caller.userId ≠ app.userId →
      (getApplication s caller appId).1.status = 403 ∧
      (getApplication s caller appId).2 = s) ∧
    (∀ job, caller.role = Role.RECRUITER →
      s.jobs.find? (fun x => x.id = app.jobId) = some job →
      (job.recruiterId = caller.userId →
        (getApplication s caller appId).1.status = 200 ∧
        (getApplication s caller appId).1.data = some app) ∧
      (job.recruiterId ≠ caller.userId →
        (getApplication s caller appId).1.status = 403 ∧
        (getApplication s caller appId).2 = s)) ∧
    (caller.role = Role.ADMIN →
      (getApplication s caller appId).1.status = 200 ∧
      (getApplication s caller appId).1.data = some app) ∧
    (∀ missingId, s.applications.find? (fun a => a.id = missingId) = none →
      (getApplication s caller missingId).1.status = 404 ∧
      (getApplication s caller missingId).2 = s) := by
  refine ⟨?_, ?_, ?_, ?_, ?_⟩
  · intro hrole heq
    have hne : ¬(app.userId ≠ caller.userId) := by simp [heq]
    simp [getApplication, happ, hrole, hne]
  · intro hrole hne
    have hne2 : app.userId ≠ caller.userId := fun h => hne h.symm
    simp [getApplication, happ, hrole, hne2]
  · intro job hrole hjob
    constructor
    · intro hownr
      have hne : ¬(job.recruiterId ≠ caller.userId) := by simp [hownr]
      simp [getApplication, happ, hrole, hjob, hne]
    · intro hownr
      simp [getApplication, happ, hrole, hjob, hownr]
  · intro hrole
    simp [getApplication, happ, hrole]
  · intro missingId hmiss
    simp [getApplication, hmiss]

/-- C4 witness: the access-control theorem applied to the concrete
application store with the admin caller. -/
theorem getApplication_access_control_witness :
    (getApplication appStore adminCaller 7).1.status = 200 ∧
    (getApplication appStore adminCaller 7).1.data = some pendingApp :=
  (getApplication_access_control appStore adminCaller 7 pendingApp (by decide)).2.2.2.1 rfl

/-- Helper: the delete-user cascade loop only touches the application
and saved-job tables. -/
theorem purge_foldl_fixed (l : List JobRow) (st : Store) :
    (l.foldl purgeJobRefs st).users = st.users ∧
    (l.foldl purgeJobRefs st).profiles = st.profiles ∧
    (l.foldl purgeJobRefs st).jobs = st.jobs ∧
    (l.foldl purgeJobRefs st).nextId = st.nextId := by
  induction l generalizing st with
  | nil => exact ⟨rfl, rfl, rfl, rfl⟩
  | cons x xs ih => simpa [purgeJobRefs] using ih (purgeJobRefs st x)

/-- Helper: an application surviving the cascade loop was there before
and references none of the purged jobs. -/
theorem purge_foldl_applications (l : List JobRow) (st : Store) (a : ApplicationRow)
    (ha : a ∈ (l.foldl purgeJobRefs st).applications) :
    a ∈ st.applications ∧ ∀ j ∈ l, a.jobId ≠ j.id := by
  induction l generalizing st with
  | nil => simpa using ha
  | cons x xs ih =>
    have h := ih (purgeJobRefs st x) ha
    have hmem := h.1
    simp only [purgeJobRefs, List.mem_filter, decide_eq_true_eq] at hmem
    refine ⟨hmem.1, ?_⟩
    intro j hj
    rcases List.mem_cons.mp hj with hj | hj
    · rw [hj]
      exact hmem.2
    · exact h.2 j hj

/-- Helper: a saved job surviving the cascade loop was there before and
references none of the purged jobs. -/
theorem purge_foldl_savedJobs (l : List JobRow) (st : Store) (x : SavedJobRow)
    (hx : x ∈ (l.foldl purgeJobRefs st).savedJobs) :
    x ∈ st.savedJobs ∧ ∀ j ∈ l, x.jobId ≠ j.id := by
  induction l generalizing st with
  | nil => simpa using hx
  | cons y ys ih =>
    have h := ih (purgeJobRefs st y) hx
    have hmem := h.1
    simp only [purgeJobRefs, List.mem_filter, decide_eq_true_eq] at hmem
    refine ⟨hmem.1, ?_⟩
    intro j hj
    rcases List.mem_cons.mp hj with hj | hj
    · rw [hj]
      exact hmem.2
    · exact h.2 j hj

/-- C5: a successful admin delete-user leaves no application, saved job,
job or profile referencing the deleted user, and no application or saved
job referencing any job that user recruited. -/
theorem deleteUser_cascade (s : Store) (caller : AuthUser) (uid : Nat)
    (hrole : caller.role = Role.ADMIN)
    (huser : (s.users.find? (fun u => u.id = uid)).isSome = true) :
    (deleteUser s caller uid).1.status = 200 ∧
    (∀ a ∈ (deleteUser s caller uid).2.applications,
      a.userId ≠ uid ∧ ∀ j ∈ s.jobs, j.recruiterId = uid → a.jobId ≠ j.id) ∧
    (∀ x ∈ (deleteUser s caller uid).2.savedJobs,
      x.userId ≠ uid ∧ ∀ j ∈ s.jobs, j.recruiterId = uid → x.jobId ≠ j.id) ∧
    (∀ j ∈ (deleteUser s caller uid).2.jobs, j.recruiterId ≠ uid) ∧
    (∀ p ∈ (deleteUser s caller uid).2.profiles, p.userId ≠ uid) ∧
    (∀ u ∈ (deleteUser s caller uid).2.users, u.id ≠ uid) := by
  have hreq : requireRole [Role.ADMIN] caller = true := by
    simp [requireRole, hrole]
  rw [deleteUser, hreq]
  simp only [Bool.not_true, Bool.false_eq_true, if_false]
  split
  next h =>
    rw [(purge_foldl_fixed _ _).1] at h
    rw [Option.isNone_iff_eq_none] at h
    rw [h] at huser
    exact absurd huser (by simp)
  next h =>
    refine ⟨rfl, ?_, ?_, ?_, ?_, ?_⟩
    · intro a ha
      have h2 := purge_foldl_applications _ _ a ha
      have hmem := h2.1
      rw [List.mem_filter] at hmem
      refine ⟨by simpa using hmem.2, ?_⟩
      intro j hj hrec
      exact h2.2 j (List.mem_filter.mpr ⟨hj, by simp [hrec]⟩)
    · intro x hx
      have h2 := purge_foldl_savedJobs _ _ x hx
      have hmem := h2.1
      rw [List.mem_filter] at hmem
      refine ⟨by simpa using hmem.2, ?_⟩
      intro j hj hrec
      exact h2.2 j (List.mem_filter.mpr ⟨hj, by simp [hrec]⟩)
    · intro j hj
      rw [List.mem_filter] at hj
      simpa using hj.2
    · intro p hp
      rw [List.mem_filter] at hp
      simpa using hp.2
    · intro u hu
      rw [List.mem_filter] at hu
      simpa using hu.2

/-- C5 witness: the cascade theorem applied to a concrete store where
the deleted recruiter owns a job with an application and a saved-job
row, plus a profile. -/
theorem deleteUser_cascade_witness :
    (deleteUser cascadeStore adminCaller 10).1.status = 200 ∧
    (deleteUser cascadeStore adminCaller 10).2.applications = [] ∧
    (deleteUser cascadeStore adminCaller 10).2.savedJobs = [] ∧
    (deleteUser cascadeStore adminCaller 10).2.jobs = [] ∧
    (deleteUser cascadeStore adminCaller 10).2.profiles = [] :=
  have h := deleteUser_cascade cascadeStore adminCaller 10 rfl (by decide)
  ⟨h.1, by decide, by decide, by decide, by decide⟩

/-- C7: saving an unsaved existing job succeeds; saving it again fails
with 400 and the already-saved message, leaving exactly one saved-job
row for the pair; removing it succeeds and the subsequent check reports
false. -/
theorem save_remove_check_roundtrip (s : Store) (caller : AuthUser) (jobId : Nat)
    (hrole : caller.role = Role.JOB_SEEKER)
    (hjob : (s.jobs.find? (fun j => j.id = jobId)).isSome = true)
    (hnone : s.savedJobs.find?
      (fun sj => sj.userId = caller.userId ∧ sj.jobId = jobId) = none) :
    (saveJob s caller jobId).1.status = 200 ∧
    (saveJob (saveJob s caller jobId).2 caller jobId).1.status = 400 ∧
    (saveJob (saveJob s caller jobId).2 caller jobId).1.message = "Job already saved" ∧
    (saveJob (saveJob s caller jobId).2 caller jobId).2 = (saveJob s caller jobId).2 ∧
    ((saveJob s caller jobId).2).savedJobs.countP
      (fun sj => sj.userId = caller.userId ∧ sj.jobId = jobId) = 1 ∧
    (removeSavedJob (saveJob s caller jobId).2 caller jobId).1.status = 200 ∧
    (checkSavedJob (removeSavedJob (saveJob s caller jobId).2 caller jobId).2
      caller jobId).1.data = some false := by
  have hreq : requireRole [Role.JOB_SEEKER] caller = true := by
    simp [requireRole, hrole]
  have hjn : (s.jobs.find? (fun j => j.id = jobId)).isNone = false := by
    rw [Option.isNone_eq_false_iff]
    exact hjob
  have han : (s.savedJobs.find?
      (fun sj => sj.userId = caller.userId ∧ sj.jobId = jobId)).isSome = false := by
    rw [hnone]; rfl
  have h1 : saveJob s caller jobId =
      (⟨200, "Job saved", some ()⟩,
       { s with
           savedJobs := s.savedJobs ++ [⟨s.nextId, caller.userId, jobId, s.nextId⟩]
           nextId := s.nextId + 1 }) := by
    simp only [saveJob, hreq, Bool.not_true, Bool.false_eq_true, if_false, hjn, han, ite_false]
  rw [h1]
  set sj : SavedJobRow := ⟨s.nextId, caller.userId, jobId, s.nextId⟩ with hsj
  set s1 : Store :=
    { s with savedJobs := s.savedJobs ++ [sj], nextId := s.nextId + 1 } with hs1
  have hpair : (fun x : SavedJobRow =>
      decide (x.userId = caller.userId ∧ x.jobId = jobId)) sj = true := by
    simp [hsj]
  have hfind1 : s1.savedJobs.find?
      (fun x => x.userId = caller.userId ∧ x.jobId = jobId) = some sj := by
    show (s.savedJobs ++ [sj]).find? _ = some sj
    rw [List.find?_append, hnone]
    simp [hpair]
  have hjn1 : (s1.jobs.find? (fun j => j.id = jobId)).isNone = false := by
    show (s.jobs.find? (fun j => j.id = jobId)).isNone = false
    rw [Option.isNone_eq_false_iff]
    exact hjob
  have h2 : saveJob s1 caller jobId = (⟨400, "Job already saved", none⟩, s1) := by
    simp only [saveJob, hreq, Bool.not_true, Bool.false_eq_true, if_false, hjn1, ite_false,
      hfind1, Option.isSome_some, if_true]
  have hnonepred : ∀ x ∈ s.savedJobs, ¬(x.userId = caller.userId ∧ x.jobId = jobId) := by
    intro x hx
    have := List.find?_eq_none.mp hnone x hx
    simpa using this
  have hfilter : s1.savedJobs.filter
      (fun x => ¬(x.userId = caller.userId ∧ x.jobId = jobId)) = s.savedJobs := by
    show (s.savedJobs ++ [sj]).filter _ = s.savedJobs
    rw [List.filter_append]
    have hl : s.savedJobs.filter
        (fun x => (¬(x.userId = caller.userId ∧ x.jobId = jobId) : Bool)) = s.savedJobs := by
      rw [List.filter_eq_self]
      intro x hx
      have hnp := hnonepred x hx
      simp [hnp]
    have hr : [sj].filter
        (fun x => (¬(x.userId = caller.userId ∧ x.jobId = jobId) : Bool)) = [] := by
      simp [hsj]
    rw [hl, hr, List.append_nil]
  have h3 : removeSavedJob s1 caller jobId =
      (⟨200, "Job removed from saved", some ()⟩,
       { s1 with savedJobs := s.savedJobs }) := by
    simp only [removeSavedJob, hreq, Bool.not_true, Bool.false_eq_true, if_false, hfind1,
      Option.isNone_some, ite_false]
    rw [Prod.mk.injEq]
    refine ⟨rfl, ?_⟩
    rw [Store.mk.injEq]
    refine ⟨rfl, rfl, rfl, rfl, rfl, rfl, ?_, rfl⟩
    exact hfilter
  rw [h2, h3]
  have hcheck : (checkSavedJob { s1 with savedJobs := s.savedJobs } caller jobId).1.data
      = some false := by
    simp only [checkSavedJob, hreq, Bool.not_true, Bool.false_eq_true, if_false, ite_false]
    show some ((s.savedJobs.find? _).isSome) = some false
    rw [hnone]
    rfl
  have hcount : (s.savedJobs ++ [sj]).countP
      (fun x => x.userId = caller.userId ∧ x.jobId = jobId) = 1 := by
    rw [List.countP_append]
    have h0 : s.savedJobs.countP
        (fun x => (x.userId = caller.userId ∧ x.jobId = jobId : Bool)) = 0 := by
      rw [List.countP_eq_zero]
      intro x hx
      simpa using hnonepred x hx
    rw [h0]
    simp [hpair]
  exact ⟨rfl, rfl, rfl, rfl, hcount, rfl, hcheck⟩

/-- C7 witness: the save/remove/check theorem applied to the base store. -/
theorem save_remove_check_roundtrip_witness :
    (saveJob baseStore seekerCaller 5).1.status = 200 ∧
    (saveJob (saveJob baseStore seekerCaller 5).2 seekerCaller 5).1.status = 400 ∧
    (checkSavedJob (removeSavedJob (saveJob baseStore seekerCaller 5).2 seekerCaller 5).2
      seekerCaller 5).1.data = some false :=
  have h := save_remove_check_roundtrip baseStore seekerCaller 5 rfl (by decide) rfl
  ⟨h.1, h.2.1, h.2.2.2.2.2.2⟩

/-- C8: GET /profile for a user with no profile creates exactly one; a
second call returns that same profile and changes nothing; the public
profile lookup for a user with no profile yields 404 and creates
nothing. -/
theorem profile_lazy_creation (s : Store) (caller : AuthUser) (user : UserRow)
    (hno : s.profiles.find? (fun p => p.userId = caller.userId) = none)
    (huser : s.users.find? (fun u => u.id = caller.userId) = some user) :
    (getMyProfile s caller).1.status = 200 ∧
    (getMyProfile s caller).1.data = some ⟨s.nextId, caller.userId, some user.name⟩ ∧
    (getMyProfile s caller).2.profiles
      = s.profiles ++ [⟨s.nextId, caller.userId, some user.name⟩] ∧
    (getMyProfile s caller).2.profiles.countP (fun p => p.userId = caller.userId) = 1 ∧
    getMyProfile (getMyProfile s caller).2 caller =
      (⟨200, "", some ⟨s.nextId, caller.userId, some user.name⟩⟩, (getMyProfile s caller).2) ∧
    (∀ uid, s.profiles.find? (fun p => p.userId = uid) = none →
      getProfileByUserId s uid = (⟨404, "Profile not found", none⟩, s)) := by
  have h1 : getMyProfile s caller =
      (⟨200, "", some ⟨s.nextId, caller.userId, some user.name⟩⟩,
       { s with
           profiles := s.profiles ++ [⟨s.nextId, caller.userId, some user.name⟩]
           nextId := s.nextId + 1 }) := by
    simp only [getMyProfile, hno, huser]
  rw [h1]
  set p : ProfileRow := ⟨s.nextId, caller.userId, some user.name⟩ with hp
  have hpred : (fun q : ProfileRow => decide (q.userId = caller.userId)) p = true := by
    simp [hp]
  have hfind1 : (s.profiles ++ [p]).find? (fun q => q.userId = caller.userId) = some p := by
    rw [List.find?_append, hno]
    simp [hpred]
  have hcount : (s.profiles ++ [p]).countP (fun q => q.userId = caller.userId) = 1 := by
    rw [List.countP_append]
    have h0 : s.profiles.countP (fun q => (q.userId = caller.userId : Bool)) = 0 := by
      rw [List.countP_eq_zero]
      intro q hq
      have := List.find?_eq_none.mp hno q hq
      simpa using this
    rw [h0]
    simp [hpred]
  refine ⟨rfl, rfl, rfl, hcount, ?_, ?_⟩
  · simp only [getMyProfile]
    show (match (s.profiles ++ [p]).find? (fun q => q.userId = caller.userId) with
      | some q => _
      | none => _) = _
    rw [hfind1]
  · intro uid hmiss
    simp [getProfileByUserId, hmiss]

/-- C8 witness: the lazy-creation theorem applied to the base store and
the job seeker, who has no profile there. -/
theorem profile_lazy_creation_witness :
    (getMyProfile baseStore seekerCaller).1.status = 200 ∧
    (getMyProfile baseStore seekerCaller).2.profiles.countP
      (fun p => p.userId = seekerCaller.userId) = 1 ∧
    getMyProfile (getMyProfile baseStore seekerCaller).2 seekerCaller =
      (⟨200, "", some ⟨baseStore.nextId, seekerCaller.userId, some seekerRow.name⟩⟩,
       (getMyProfile baseStore seekerCaller).2) :=
  have h := profile_lazy_creation baseStore seekerCaller seekerRow rfl (by decide)
  ⟨h.1, h.2.2.2.1, h.2.2.2.2.1⟩

/-- C9: an experience row produced by the add or update handler has a
null end date whenever the current flag is set, regardless of any end
date supplied. -/
theorem experience_current_forces_null_endDate (s : Store) (caller : AuthUser)
    (b : ExperienceBody) (expId : Nat) (hcur : b.current = true) :
    (∀ e, (addExperience s caller b).1.data = some e →
      e.endDate = none ∧ e ∈ (addExperience s caller b).2.experiences) ∧
    ((updateExperience s caller expId b).1.status = 200 →
      ∀ e ∈ (updateExperience s caller expId b).2.experiences,
        e.id = expId → e.endDate = none) := by
  constructor
  · intro e he
    by_cases hval : (jsFalsy b.title || jsFalsy b.company || jsFalsy b.startDate) = true
    · rw [addExperience] at he
      rw [if_pos hval] at he
      exact absurd he (by simp)
    · rw [addExperience] at he ⊢
      rw [if_neg hval] at he ⊢
      simp only [Option.some.injEq] at he
      rw [← he]
      refine ⟨by simp [hcur], ?_⟩
      simp
  · intro hst e he hid
    rw [updateExperience] at hst he
    rcases hfind : s.experiences.find? (fun x => x.id = expId) with _ | ex
    · rw [hfind] at hst
      simp at hst
    · rw [hfind] at hst he
      simp only [] at hst he
      rcases hprof : s.profiles.find? (fun q => q.id = ex.profileId) with _ | pr
      · rw [hprof] at hst
        simp at hst
      · rw [hprof] at hst he
        simp only [] at hst he
        by_cases hown : pr.userId ≠ caller.userId
        · rw [if_pos hown] at hst
          simp at hst
        · rw [if_neg hown] at he
          simp only at he
          rw [List.mem_map] at he
          obtain ⟨x, hx, hxe⟩ := he
          by_cases hxid : x.id = expId
          · rw [if_pos hxid] at hxe
            rw [← hxe]
            simp [applyExperienceUpdate, hcur]
          · rw [if_neg hxid] at hxe
            rw [← hxe] at hid
            exact absurd hid hxid

/-- C9 witness: adding an experience with the current flag set and an
end date supplied stores a null end date. -/
theorem experience_current_witness :
    (addExperience baseStore seekerCaller currentBody).1.data = some currentExp ∧
    currentExp.endDate = none :=
  ⟨by decide, ((experience_current_forces_null_endDate baseStore seekerCaller currentBody 0
    rfl).1 currentExp (by decide)).1⟩

/-- C10: updating or deleting an experience or education row whose id
does not exist yields 403 Not authorized, exactly as for a row owned by
someone else, and leaves the store unchanged. -/
theorem missing_target_forbidden (s : Store) (caller : AuthUser) (t : Nat)
    (be : ExperienceBody) (bd : EducationBody)
    (hexp : s.experiences.find? (fun e => e.id = t) = none)
    (hedu : s.education.find? (fun e => e.id = t) = none) :
    updateExperience s caller t be = (⟨403, "Not authorized", none⟩, s) ∧
    deleteExperience s caller t = (⟨403, "Not authorized", none⟩, s) ∧
    updateEducation s caller t bd = (⟨403, "Not authorized", none⟩, s) ∧
    deleteEducation s caller t = (⟨403, "Not authorized", none⟩, s) := by
  refine ⟨?_, ?_, ?_, ?_⟩
  · simp [updateExperience, hexp]
  · simp [deleteExperience, hexp]
  · simp [updateEducation, hedu]
  · simp [deleteEducation, hedu]

/-- C10 witness: the missing-target theorem applied to the empty store. -/
theorem missing_target_forbidden_witness :
    updateExperience emptyStore seekerCaller 99 currentBody
      = (⟨403, "Not authorized", none⟩, emptyStore) ∧
    deleteEducation emptyStore seekerCaller 99 = (⟨403, "Not authorized", none⟩, emptyStore) :=
  have h := missing_target_forbidden emptyStore seekerCaller 99 currentBody
    ⟨none, none, none, none, none, none⟩ rfl rfl
  ⟨h.1, h.2.2.2⟩

end JobPortal
